import Mathlib

/-!
Verification of the drowsiness inference and alerting engine of
`src/app/page.tsx` (a React page; the engine consists of the plain
functions `calculateEyeAspectRatio`, `calculateMouthAspectRatio`,
`analyzeDrowsinessPattern`, the alert-raising logic of
`detectFaceAndEyes`, `triggerAlert`/`dismissAlert`, and the session
functions `startSession`/`endSession`/`updateAnalytics`).

Embedding conventions:
* Geometry (pixel coordinates, Euclidean distances) is embedded over `ℝ`.
  JavaScript `Number` division by zero and out-of-bounds array access do
  not exist on `ℝ`, so the geometry functions return `Option JSNumber`:
  `none` models a thrown `TypeError` (reading `.x` of `undefined`), and
  `JSNumber` distinguishes a finite result from the `Infinity`/`NaN`
  that JavaScript produces on division by zero.
* The analysis pipeline (EAR samples, thresholds, scores, timestamps in
  integer milliseconds) is embedded with exact arithmetic: `ℚ` for EAR
  values and scores, `ℤ` for millisecond timestamps.  The configuration
  slider keeps `earThreshold` in [0.15, 0.35], so the JavaScript
  `NaN`-propagation that would arise only at `earThreshold = 0` is
  excluded by a `0 < earThreshold` hypothesis where scores matter.
* React `useState`/`useRef` cells become fields of explicit state
  records threaded through the step functions; `setState` becomes a
  functional update.  Timer callbacks (`setTimeout` auto-dismiss) and
  media side effects (audio, notifications, vibration) are external
  effects: the auto-dismiss callback body is modelled as the state
  update it performs (`autoDismissAlert`).
-/

namespace Drowsy

/-! ## JavaScript number results for the geometry extractor -/

/-- The result of a JavaScript floating-point computation, as far as the
geometry extractor can distinguish: a finite number, `Infinity`,
`-Infinity`, or `NaN`.  (Signed zero is irrelevant here: the divisors are
Euclidean distances, which are nonnegative.) -/
inductive JSNumber where
  | num (x : ℝ)
  | posInf
  | negInf
  | nan

/-- JavaScript division `a / b`: for `b = 0` it produces `NaN` when
`a = 0` and a signed infinity otherwise; elsewhere it is ordinary
division. -/
noncomputable def jsDiv (a b : ℝ) : JSNumber :=
  if b = 0 then
    if a = 0 then JSNumber.nan
    else if 0 < a then JSNumber.posInf
    else JSNumber.negInf
  else JSNumber.num (a / b)

/-- A landmark coordinate in frame-pixel space (`{x: number, y: number}`). -/
structure Point2D where
  x : ℝ
  y : ℝ

/-- `Math.sqrt(Math.pow(p.x - q.x, 2) + Math.pow(p.y - q.y, 2))`. -/
noncomputable def ptDist (p q : Point2D) : ℝ :=
  Real.sqrt ((p.x - q.x) ^ 2 + (p.y - q.y) ^ 2)

/-- `calculateEyeAspectRatio` (page.tsx lines 493-505).  Guard: fewer
than 6 points returns `0`.  Indexing is via `List.getElem?`; a `none`
result models the `TypeError` JavaScript throws when reading `.x` of
`undefined` (unreachable here, since the guard admits only lists with at
least the 6 points the body reads). -/
noncomputable def calculateEyeAspectRatio (eyePoints : List Point2D) : Option JSNumber :=
  if eyePoints.length < 6 then some (JSNumber.num 0)
  else do
    let p1 ← eyePoints[1]?
    let p5 ← eyePoints[5]?
    let p2 ← eyePoints[2]?
    let p4 ← eyePoints[4]?
    let p0 ← eyePoints[0]?
    let p3 ← eyePoints[3]?
    let v1 := ptDist p1 p5
    let v2 := ptDist p2 p4
    let h := ptDist p0 p3
    some (jsDiv (v1 + v2) (2 * h))

/-- `calculateMouthAspectRatio` (page.tsx lines 507-524).  The source
guard is `mouthPoints.length < 6` — not `< 8` — although the body reads
indices 6 and 7, so a 6- or 7-point list passes the guard and the read
of `mouthPoints[6].x` / `mouthPoints[7].x` throws (`none` here). -/
noncomputable def calculateMouthAspectRatio (mouthPoints : List Point2D) : Option JSNumber :=
  if mouthPoints.length < 6 then some (JSNumber.num 0)
  else do
    let p2 ← mouthPoints[2]?
    let p6 ← mouthPoints[6]?
    let p3 ← mouthPoints[3]?
    let p7 ← mouthPoints[7]?
    let p0 ← mouthPoints[0]?
    let p4 ← mouthPoints[4]?
    let v1 := ptDist p2 p6
    let v2 := ptDist p3 p7
    let h := ptDist p0 p4
    some (jsDiv (v1 + v2) (2 * h))

/-- Uniform scaling of a landmark point by `k`. -/
def scalePoint (k : ℝ) (p : Point2D) : Point2D := ⟨k * p.x, k * p.y⟩

/-! ## Configuration and detection history -/

/-- `DrowsinessConfig` (page.tsx lines 40-46). -/
structure DrowsinessConfig where
  earThreshold : ℚ
  consecutiveFrames : ℕ
  blinkThreshold : ℚ
  yawnThreshold : ℚ
  alertCooldown : ℤ

/-- The initial configuration (page.tsx lines 146-152). -/
def defaultConfig : DrowsinessConfig :=
  { earThreshold := 0.25
    consecutiveFrames := 10
    blinkThreshold := 0.2
    yawnThreshold := 0.6
    alertCooldown := 3000 }

/-- `DetectionHistory` (page.tsx lines 48-55). -/
structure DetectionHistory where
  earValues : List ℚ
  blinkStates : List Bool
  timestamps : List ℤ
  maxHistoryLength : ℕ
  eyeClosureStartTime : Option ℤ
  lastEyeClosureDuration : ℤ

/-- The initial `detectionHistoryRef` value (page.tsx lines 114-121). -/
def initialDetectionHistory : DetectionHistory :=
  { earValues := []
    blinkStates := []
    timestamps := []
    maxHistoryLength := 100
    eyeClosureStartTime := none
    lastEyeClosureDuration := 0 }

/-- `Array.prototype.slice(-n)`: the last `n` elements.  JavaScript
`slice(-0)` is `slice(0)`, the whole array. -/
def jsSliceNeg (l : List α) (n : ℕ) : List α :=
  if n = 0 then l else l.drop (l.length - n)

/-- `Math.round` on an exact rational: round half toward `+∞`. -/
def jsRound (q : ℚ) : ℤ := ⌊q + 1 / 2⌋

/-- History push and capacity trim (page.tsx lines 529-538): push
`currentEAR` and `timestamp`, then, if the pushed `earValues` exceeds
`maxHistoryLength`, `shift()` all three parallel arrays (the blink flag
for this frame has not been pushed yet at this point).  Returns
`(earValues, timestamps, blinkStates)` after the trim. -/
def trimStep (h : DetectionHistory) (currentEAR : ℚ) (timestamp : ℤ) :
    List ℚ × List ℤ × List Bool :=
  let earPushed := h.earValues ++ [currentEAR]
  let tsPushed := h.timestamps ++ [timestamp]
  if earPushed.length > h.maxHistoryLength then
    (earPushed.tail, tsPushed.tail, h.blinkStates.tail)
  else
    (earPushed, tsPushed, h.blinkStates)

/-- Eye-closure tracking (page.tsx lines 540-560).  Returns the new
`eyeClosureStartTime`, the new `lastEyeClosureDuration`, and this
frame's `eyeClosureDuration` (`timestamp - startTime` while closed —
`0` on the frame that starts a closure, since the start time is set to
`timestamp` itself — and `0` while open). -/
def closureUpdate (cfg : DrowsinessConfig) (h : DetectionHistory)
    (currentEAR : ℚ) (timestamp : ℤ) : Option ℤ × ℤ × ℤ :=
  if currentEAR < cfg.earThreshold then
    match h.eyeClosureStartTime with
    | none => (some timestamp, h.lastEyeClosureDuration, 0)
    | some st => (some st, h.lastEyeClosureDuration, timestamp - st)
  else
    match h.eyeClosureStartTime with
    | some st => (none, timestamp - st, 0)
    | none => (none, h.lastEyeClosureDuration, 0)

/-- Alert severity levels (`AlertState["level"]`). -/
inductive AlertLevel where
  | low
  | medium
  | high
  | critical
deriving DecidableEq

/-- The per-frame analysis result returned by `analyzeDrowsinessPattern`
(page.tsx lines 617-626). -/
structure DrowsinessAnalysis where
  isDrowsy : Bool
  blinkRate : ℕ
  avgEAR : ℚ
  drowsinessScore : ℚ
  alertLevel : AlertLevel
  alertMessage : String
  eyeClosureDuration : ℤ
  isSustainedClosure : Bool

/-- This frame's `eyeClosureDuration` (page.tsx lines 541-560). -/
def eyeClosureDurationOf (cfg : DrowsinessConfig) (h : DetectionHistory)
    (currentEAR : ℚ) (timestamp : ℤ) : ℤ :=
  (closureUpdate cfg h currentEAR timestamp).2.2

/-- `isBlink` (page.tsx line 563): `isEyesClosed && eyeClosureDuration < 500`. -/
def isBlinkOf (cfg : DrowsinessConfig) (h : DetectionHistory)
    (currentEAR : ℚ) (timestamp : ℤ) : Bool :=
  decide (currentEAR < cfg.earThreshold) &&
    decide (eyeClosureDurationOf cfg h currentEAR timestamp < 500)

/-- `isSustainedClosure` (page.tsx line 564): `eyeClosureDuration >= 3000`. -/
def isSustainedClosureOf (cfg : DrowsinessConfig) (h : DetectionHistory)
    (currentEAR : ℚ) (timestamp : ℤ) : Bool :=
  decide (3000 ≤ eyeClosureDurationOf cfg h currentEAR timestamp)

/-- `blinkStates` after this frame's push (page.tsx line 566): the
trimmed array with this frame's `isBlink` appended. -/
def blinkStatesAfter (cfg : DrowsinessConfig) (h : DetectionHistory)
    (currentEAR : ℚ) (timestamp : ℤ) : List Bool :=
  (trimStep h currentEAR timestamp).2.2 ++ [isBlinkOf cfg h currentEAR timestamp]

/-- `recentBlinks` (page.tsx lines 569-575): samples of the last minute
whose parallel blink flag is set.  The source `reduce` reads
`blinkStates[index]` for each `timestamps` index; zipping the two
parallel arrays counts the same entries (a missing flag is `undefined`,
which is falsy, exactly as `zip` drops it). -/
def recentBlinksOf (cfg : DrowsinessConfig) (h : DetectionHistory)
    (currentEAR : ℚ) (timestamp : ℤ) : ℕ :=
  (((trimStep h currentEAR timestamp).2.1.zip (blinkStatesAfter cfg h currentEAR timestamp)).filter
    (fun p => decide (timestamp - 60000 < p.1) && p.2)).length

/-- `avgEAR` (page.tsx lines 577-579): mean of the retained EAR values,
`0` when the buffer is empty. -/
def avgEAROf (h : DetectionHistory) (currentEAR : ℚ) (timestamp : ℤ) : ℚ :=
  let l := (trimStep h currentEAR timestamp).1
  if 0 < l.length then l.sum / (l.length : ℚ) else 0

/-- `recentLowEARCount` (page.tsx lines 582-584): values below the
threshold among the last `consecutiveFrames` retained EAR values. -/
def recentLowEARCountOf (cfg : DrowsinessConfig) (h : DetectionHistory)
    (currentEAR : ℚ) (timestamp : ℤ) : ℕ :=
  ((jsSliceNeg (trimStep h currentEAR timestamp).1 cfg.consecutiveFrames).filter
    (fun e => decide (e < cfg.earThreshold))).length

/-- `isDrowsy` (page.tsx line 585): `recentLowEARCount >= consecutiveFrames * 0.8`. -/
def isDrowsyOf (cfg : DrowsinessConfig) (h : DetectionHistory)
    (currentEAR : ℚ) (timestamp : ℤ) : Bool :=
  decide ((cfg.consecutiveFrames : ℚ) * 0.8 ≤ (recentLowEARCountOf cfg h currentEAR timestamp : ℚ))

/-- `earScore` (page.tsx line 588). -/
def earScoreOf (cfg : DrowsinessConfig) (h : DetectionHistory)
    (currentEAR : ℚ) (timestamp : ℤ) : ℚ :=
  max 0 ((cfg.earThreshold - avgEAROf h currentEAR timestamp) / cfg.earThreshold * 100)

/-- `blinkScore` (page.tsx line 589). -/
def blinkScoreOf (cfg : DrowsinessConfig) (h : DetectionHistory)
    (currentEAR : ℚ) (timestamp : ℤ) : ℚ :=
  max 0 ((15 - (recentBlinksOf cfg h currentEAR timestamp : ℚ)) / 15 * 100)

/-- `drowsinessScore` before the sustained-closure override
(page.tsx line 590). -/
def baseScoreOf (cfg : DrowsinessConfig) (h : DetectionHistory)
    (currentEAR : ℚ) (timestamp : ℤ) : ℚ :=
  min 100 ((earScoreOf cfg h currentEAR timestamp + blinkScoreOf cfg h currentEAR timestamp) / 2)

/-- `drowsinessScore` after the sustained-closure override
(page.tsx lines 592-594): forced up to at least 95. -/
def drowsinessScoreOf (cfg : DrowsinessConfig) (h : DetectionHistory)
    (currentEAR : ℚ) (timestamp : ℤ) : ℚ :=
  if isSustainedClosureOf cfg h currentEAR timestamp then
    max (baseScoreOf cfg h currentEAR timestamp) 95
  else baseScoreOf cfg h currentEAR timestamp

/-- `alertLevel` (page.tsx lines 596-615), first match wins. -/
def alertLevelOf (cfg : DrowsinessConfig) (h : DetectionHistory)
    (currentEAR : ℚ) (timestamp : ℤ) : AlertLevel :=
  if isSustainedClosureOf cfg h currentEAR timestamp then AlertLevel.critical
  else if 80 < drowsinessScoreOf cfg h currentEAR timestamp then AlertLevel.critical
  else if 60 < drowsinessScoreOf cfg h currentEAR timestamp then AlertLevel.high
  else if 40 < drowsinessScoreOf cfg h currentEAR timestamp then AlertLevel.medium
  else AlertLevel.low

/-- `alertMessage` (page.tsx lines 596-615), alongside `alertLevel`;
the final case keeps the initial empty message. -/
def alertMessageOf (cfg : DrowsinessConfig) (h : DetectionHistory)
    (currentEAR : ℚ) (timestamp : ℤ) : String :=
  if isSustainedClosureOf cfg h currentEAR timestamp then
    "CRITICAL: Eyes closed for " ++
      toString (jsRound ((eyeClosureDurationOf cfg h currentEAR timestamp : ℚ) / 1000)) ++
      " seconds! Wake up immediately!"
  else if 80 < drowsinessScoreOf cfg h currentEAR timestamp then
    "CRITICAL: Severe drowsiness detected! Please stop and rest immediately."
  else if 60 < drowsinessScoreOf cfg h currentEAR timestamp then
    "HIGH ALERT: Significant drowsiness detected. Consider taking a break."
  else if 40 < drowsinessScoreOf cfg h currentEAR timestamp then
    "MODERATE: Drowsiness signs detected. Stay alert."
  else if isDrowsyOf cfg h currentEAR timestamp then
    "NOTICE: Mild drowsiness detected."
  else ""

/-- `analyzeDrowsinessPattern` (page.tsx lines 526-627), as a function
from the mutable `detectionHistoryRef` state to its updated value plus
the returned analysis record, assembled from the named per-quantity
definitions above. -/
def analyzeDrowsinessPattern (cfg : DrowsinessConfig) (h : DetectionHistory)
    (currentEAR : ℚ) (timestamp : ℤ) : DetectionHistory × DrowsinessAnalysis :=
  ({ earValues := (trimStep h currentEAR timestamp).1
     blinkStates := blinkStatesAfter cfg h currentEAR timestamp
     timestamps := (trimStep h currentEAR timestamp).2.1
     maxHistoryLength := h.maxHistoryLength
     eyeClosureStartTime := (closureUpdate cfg h currentEAR timestamp).1
     lastEyeClosureDuration := (closureUpdate cfg h currentEAR timestamp).2.1 },
   { isDrowsy := isDrowsyOf cfg h currentEAR timestamp || isSustainedClosureOf cfg h currentEAR timestamp
     blinkRate := recentBlinksOf cfg h currentEAR timestamp
     avgEAR := avgEAROf h currentEAR timestamp
     drowsinessScore := drowsinessScoreOf cfg h currentEAR timestamp
     alertLevel := alertLevelOf cfg h currentEAR timestamp
     alertMessage := alertMessageOf cfg h currentEAR timestamp
     eyeClosureDuration := eyeClosureDurationOf cfg h currentEAR timestamp
     isSustainedClosure := isSustainedClosureOf cfg h currentEAR timestamp })

/-! ## Alert state machine -/

/-- `AlertState` (page.tsx lines 66-71). -/
structure AlertState where
  isActive : Bool
  level : AlertLevel
  message : String
  timestamp : ℤ
deriving DecidableEq

/-- The initial `alertState` (page.tsx lines 163-168). -/
def initialAlertState : AlertState :=
  { isActive := false, level := AlertLevel.low, message := "", timestamp := 0 }

/-- The alert event pushed to the external alert sink: one call of
`triggerAlert(level, message)` at a given time. -/
structure AlertEvent where
  level : AlertLevel
  message : String
  timestamp : ℤ
deriving DecidableEq

/-- The `setAlertState` update performed by `triggerAlert` (page.tsx
lines 354-363).  The audio, notification, vibration, and auto-dismiss
timer effects are external; the auto-dismiss callback body is
`autoDismissAlert` below. -/
def triggerAlert (level : AlertLevel) (message : String) (now : ℤ) : AlertState :=
  { isActive := true, level := level, message := message, timestamp := now }

/-- The auto-dismiss timeout callback (page.tsx lines 440-442): clears
`isActive` and keeps every other field, including `level`. -/
def autoDismissAlert (s : AlertState) : AlertState := { s with isActive := false }

/-- `dismissAlert` (page.tsx lines 449-458): clears `isActive` (and
cancels the pending timer / pauses audio, which are external effects);
`level`, `message` and `timestamp` are kept. -/
def dismissAlert (s : AlertState) : AlertState := { s with isActive := false }

/-- The alert-raising decision of `detectFaceAndEyes` (page.tsx lines
721-727): a sustained-closure frame fires whenever the current alert
level is not already `critical` (without consulting or updating
`lastAlertTime`); otherwise a drowsy frame fires only if
`now - lastAlertTime > alertCooldown`, and then updates
`lastAlertTime`.  Returns the new alert state, the new `lastAlertTime`,
and the emitted event, if any. -/
def alertDecision (cfg : DrowsinessConfig) (alertSt : AlertState) (lastAlertTime : ℤ)
    (analysis : DrowsinessAnalysis) (now : ℤ) : AlertState × ℤ × Option AlertEvent :=
  if analysis.isSustainedClosure && !(alertSt.level = AlertLevel.critical : Bool) then
    (triggerAlert analysis.alertLevel analysis.alertMessage now, lastAlertTime,
      some ⟨analysis.alertLevel, analysis.alertMessage, now⟩)
  else if analysis.isDrowsy && decide (cfg.alertCooldown < now - lastAlertTime) then
    (triggerAlert analysis.alertLevel analysis.alertMessage now, now,
      some ⟨analysis.alertLevel, analysis.alertMessage, now⟩)
  else
    (alertSt, lastAlertTime, none)

/-! ## Session aggregation -/

/-- The `alertsByLevel` record, keyed by the four levels (page.tsx
line 190). -/
structure AlertCounts where
  low : ℕ
  medium : ℕ
  high : ℕ
  critical : ℕ
deriving DecidableEq

/-- `alertsByLevel[level] = (alertsByLevel[level] || 0) + 1`. -/
def AlertCounts.incr (c : AlertCounts) : AlertLevel → AlertCounts
  | AlertLevel.low => { c with low := c.low + 1 }
  | AlertLevel.medium => { c with medium := c.medium + 1 }
  | AlertLevel.high => { c with high := c.high + 1 }
  | AlertLevel.critical => { c with critical := c.critical + 1 }

/-- `SessionData` (page.tsx lines 73-85). -/
structure SessionData where
  id : String
  startTime : ℤ
  endTime : Option ℤ
  duration : ℤ
  totalBlinks : ℕ
  totalAlerts : ℕ
  avgEAR : ℚ
  maxDrowsinessScore : ℚ
  alertsByLevel : AlertCounts
  earHistory : List (ℤ × ℚ)
  drowsinessHistory : List (ℤ × ℚ)
deriving DecidableEq

/-- One entry of `realTimeData` (page.tsx line 90). -/
structure RealTimePoint where
  timestamp : ℤ
  ear : ℚ
  drowsiness : ℚ
  blinks : ℕ
deriving DecidableEq

/-- `AnalyticsData` (page.tsx lines 87-92). -/
structure AnalyticsData where
  currentSession : Option SessionData
  sessions : List SessionData
  realTimeData : List RealTimePoint
  maxDataPoints : ℕ
deriving DecidableEq

/-- The initial `analytics` state (page.tsx lines 170-175). -/
def initialAnalytics : AnalyticsData :=
  { currentSession := none, sessions := [], realTimeData := [], maxDataPoints := 300 }

/-- The fresh session built by `startSession` (page.tsx lines 181-193):
id `session_${Date.now()}`, `startTime = Date.now()`, every counter
zeroed, no `endTime`, empty histories. -/
def freshSession (now : ℤ) : SessionData :=
  { id := (fun pre => pre ++ toString now) "session_"
    startTime := now
    endTime := none
    duration := 0
    totalBlinks := 0
    totalAlerts := 0
    avgEAR := 0
    maxDrowsinessScore := 0
    alertsByLevel := ⟨0, 0, 0, 0⟩
    earHistory := []
    drowsinessHistory := [] }

/-- `startSession` (page.tsx lines 180-199): unconditionally replaces
`currentSession` with a fresh zeroed session; `sessions` and every
other analytics field are untouched. -/
def startSession (now : ℤ) (a : AnalyticsData) : AnalyticsData :=
  { a with currentSession := some (freshSession now) }

/-- `Stats` (page.tsx lines 94-104). -/
structure Stats where
  eyeAspectRatio : ℚ
  blinkCount : ℕ
  alertCount : ℕ
  faceDetected : Bool
  blinkRate : ℕ
  avgEAR : ℚ
  drowsinessScore : ℚ
  eyeClosureDuration : ℤ
  currentEAR : ℚ
deriving DecidableEq

/-- The initial `stats` state (page.tsx lines 134-144). -/
def initialStats : Stats :=
  { eyeAspectRatio := 0, blinkCount := 0, alertCount := 0, faceDetected := false
    blinkRate := 0, avgEAR := 0, drowsinessScore := 0, eyeClosureDuration := 0
    currentEAR := 0 }

/-- `endSession` (page.tsx lines 201-221): with no open session it is
the identity; otherwise it freezes the open session with `endTime`,
recomputed `duration`, and the current `stats` counters, prepends it to
`sessions` keeping at most the last 50 (`[ended, ...prev.sessions.slice(0, 49)]`),
and clears `currentSession`. -/
def endSession (now : ℤ) (stats : Stats) (a : AnalyticsData) : AnalyticsData :=
  match a.currentSession with
  | none => a
  | some cur =>
      { a with
        currentSession := none
        sessions :=
          { cur with
            endTime := some now
            duration := now - cur.startTime
            totalBlinks := stats.blinkCount
            totalAlerts := stats.alertCount
            avgEAR := stats.avgEAR
            maxDrowsinessScore := max cur.maxDrowsinessScore stats.drowsinessScore }
          :: a.sessions.take 49 }

/-- `updateAnalytics` (page.tsx lines 223-258): appends a real-time
data point (keeping the last `maxDataPoints`), and, if a session is
open, refreshes its duration and max score, appends to its EAR and
drowsiness histories (each capped at the last 1000), and bumps
`alertsByLevel` when an alert level is passed.  `sessions` is never
touched.  `blinkRate` is the pre-frame `stats.blinkRate` captured by
the closure. -/
def updateAnalytics (now : ℤ) (earValue drowsinessScore : ℚ)
    (alertLevel : Option AlertLevel) (blinkRate : ℕ) (a : AnalyticsData) : AnalyticsData :=
  let newRealTimeData :=
    jsSliceNeg (a.realTimeData ++ [⟨now, earValue, drowsinessScore, blinkRate⟩]) a.maxDataPoints
  let updatedSession :=
    match a.currentSession with
    | none => none
    | some s =>
        let s' :=
          { s with
            duration := now - s.startTime
            maxDrowsinessScore := max s.maxDrowsinessScore drowsinessScore
            earHistory := jsSliceNeg (s.earHistory ++ [(now, earValue)]) 1000
            drowsinessHistory := jsSliceNeg (s.drowsinessHistory ++ [(now, drowsinessScore)]) 1000 }
        some (match alertLevel with
          | some lvl => { s' with alertsByLevel := s'.alertsByLevel.incr lvl }
          | none => s')
  { a with realTimeData := newRealTimeData, currentSession := updatedSession }

/-! ## The per-frame engine step -/

/-- `detectionStatus` (page.tsx line 129). -/
inductive DetectionStatus where
  | idle
  | active
  | drowsy
deriving DecidableEq

/-- One frame's input from the landmark detector: either no face, or a
face whose eye landmarks yielded the given averaged EAR. -/
inductive FrameInput where
  | noFace
  | face (avgEAR : ℚ)

/-- The engine's mutable per-subject context: the refs and state cells
read and written by one `detectFaceAndEyes` pass. -/
structure EngineState where
  history : DetectionHistory
  alertState : AlertState
  lastAlertTime : ℤ
  lastBlink : ℤ
  consecutiveDrowsyFrames : ℕ
  stats : Stats
  analytics : AnalyticsData
  detectionStatus : DetectionStatus

/-- The engine context right after the refs and state cells are
initialised (page.tsx lines 114-178). -/
def initialEngineState : EngineState :=
  { history := initialDetectionHistory
    alertState := initialAlertState
    lastAlertTime := 0
    lastBlink := 0
    consecutiveDrowsyFrames := 0
    stats := initialStats
    analytics := initialAnalytics
    detectionStatus := DetectionStatus.idle }

/-- The state-relevant body of `detectFaceAndEyes` (page.tsx lines
646-771) for one frame at time `now`.  On the no-face branch (lines
760-771) only the display stats are zeroed and the status is set back
to `active`: the detection history — including `eyeClosureStartTime` —
the alert state, `lastAlertTime` and the analytics are left untouched,
and nothing is emitted.  On a face frame the analysis runs, the alert
decision of lines 721-727 fires at most one event, and stats/analytics
are updated per lines 729-758.  Canvas drawing is an external effect. -/
def detectFaceAndEyes (cfg : DrowsinessConfig) (s : EngineState)
    (input : FrameInput) (now : ℤ) : EngineState × Option AlertEvent :=
  match input with
  | FrameInput.noFace =>
      ({ s with
          stats :=
            { s.stats with
              faceDetected := false, eyeAspectRatio := 0, currentEAR := 0
              blinkRate := 0, drowsinessScore := 0, eyeClosureDuration := 0 }
          detectionStatus := DetectionStatus.active }, none)
  | FrameInput.face avgEAR =>
      let ha := analyzeDrowsinessPattern cfg s.history avgEAR now
      let analysis := ha.2
      let dec := alertDecision cfg s.alertState s.lastAlertTime analysis now
      let blinkTick := decide (avgEAR < cfg.blinkThreshold) && decide (200 < now - s.lastBlink)
      let stats :=
        { s.stats with
          currentEAR := avgEAR
          blinkRate := analysis.blinkRate
          drowsinessScore := analysis.drowsinessScore
          eyeClosureDuration := analysis.eyeClosureDuration
          faceDetected := true
          eyeAspectRatio := avgEAR
          blinkCount := s.stats.blinkCount + (if blinkTick then 1 else 0)
          alertCount := s.stats.alertCount + (if analysis.alertLevel = AlertLevel.low then 0 else 1) }
      let analytics :=
        updateAnalytics now avgEAR analysis.drowsinessScore
          (if analysis.alertLevel = AlertLevel.low then none else some analysis.alertLevel)
          s.stats.blinkRate s.analytics
      ({ history := ha.1
         alertState := dec.1
         lastAlertTime := dec.2.1
         lastBlink := if blinkTick then now else s.lastBlink
         consecutiveDrowsyFrames := if analysis.isDrowsy then s.consecutiveDrowsyFrames + 1 else 0
         stats := stats
         analytics := analytics
         detectionStatus :=
           if analysis.isDrowsy then DetectionStatus.drowsy else DetectionStatus.active },
       dec.2.2)

/-! ## Concrete histories, states and point sets used by witnesses and counterexamples -/

/-- The last `n` elements of a list (all of it when it is shorter). -/
def lastN (n : ℕ) (l : List α) : List α := l.drop (l.length - n)

/-- Recording a sequence of `(ear, timestamp)` samples through
`analyzeDrowsinessPattern`, starting from the initial (empty) history. -/
def recordSamples (cfg : DrowsinessConfig) (samples : List (ℚ × ℤ)) : DetectionHistory :=
  samples.foldl (fun h s => (analyzeDrowsinessPattern cfg h s.1 s.2).1) initialDetectionHistory

/-- A history in which an eye closure started at time 0. -/
def sustainedHistoryW : DetectionHistory :=
  { initialDetectionHistory with eyeClosureStartTime := some 0 }

/-- A state in which the last 10 recorded EAR samples are all 0 and an
eye closure started at time 0, with the last alert raised at `t = 900`:
at `t = 1000` the score-derived level is `critical` but the closure is
only one second old. -/
def cexC1History : DetectionHistory :=
  { earValues := List.replicate 10 0
    blinkStates := List.replicate 10 false
    timestamps := [0, 100, 200, 300, 400, 500, 600, 700, 800, 900]
    maxHistoryLength := 100
    eyeClosureStartTime := some 0
    lastEyeClosureDuration := 0 }

/-- Engine state for the C1 counterexample. -/
def cexC1State : EngineState :=
  { initialEngineState with history := cexC1History, lastAlertTime := 900 }

/-- A state whose previous critical alert has been dismissed: the alert
machine is inactive, but `level` still reads `critical`, and an eye
closure has been running since time 0. -/
def cexC5State : EngineState :=
  { initialEngineState with
    history := { initialDetectionHistory with eyeClosureStartTime := some 0 }
    alertState := dismissAlert (triggerAlert AlertLevel.critical "CRITICAL" 100)
    lastAlertTime := 3400 }

/-- The engine state after one closed-eyes frame at `t = 0` from the
initial state. -/
def cexC6State1 : EngineState :=
  (detectFaceAndEyes defaultConfig initialEngineState (FrameInput.face 0) 0).1

/-- ... followed by a no-face frame at `t = 1000`. -/
def cexC6State2 : EngineState :=
  (detectFaceAndEyes defaultConfig cexC6State1 FrameInput.noFace 1000).1

/-- The origin landmark point. -/
def ptA : Point2D := ⟨0, 0⟩

/-- A landmark point one pixel above the origin. -/
def ptB : Point2D := ⟨0, 1⟩

/-- A landmark point one pixel to the right of the origin. -/
def ptC : Point2D := ⟨1, 0⟩

/-- A 6-point eye set whose horizontal reference points coincide
(`p0 = p3 = (0,0)`) but whose vertical pairs are one pixel apart. -/
def degenerateEye : List Point2D := [ptA, ptA, ptA, ptA, ptB, ptB]

/-- A 6-point eye set with nonzero horizontal width `p0 = (0,0)`,
`p3 = (1,0)`. -/
def witnessEye : List Point2D := [ptA, ptA, ptA, ptC, ptA, ptA]

/-! ## Helper lemmas -/

/-- The sustained-closure override forces the score to at least 95 and
the derived level to `critical` (page.tsx lines 592-601). -/
lemma sustained_score_level (cfg : DrowsinessConfig) (h : DetectionHistory)
    (currentEAR : ℚ) (timestamp : ℤ)
    (hs : isSustainedClosureOf cfg h currentEAR timestamp = true) :
    95 ≤ drowsinessScoreOf cfg h currentEAR timestamp ∧
      alertLevelOf cfg h currentEAR timestamp = AlertLevel.critical := by
  unfold drowsinessScoreOf alertLevelOf
  rw [hs]
  simp [le_max_right]

lemma lastN_length (n : ℕ) (l : List α) : (lastN n l).length = min n l.length := by
  simp only [lastN, List.length_drop]
  omega

lemma lastN_nil (n : ℕ) : lastN n ([] : List α) = [] := by
  simp [lastN]

/-- Appending to a not-yet-full window keeps everything. -/
lemma lastN_append_of_lt (n : ℕ) (l : List α) (x : α) (h : l.length < n) :
    lastN n (l ++ [x]) = lastN n l ++ [x] := by
  have h1 : (l ++ [x]).length - n = 0 := by
    simp only [List.length_append, List.length_cons, List.length_nil]
    omega
  have h2 : l.length - n = 0 := by omega
  unfold lastN
  rw [h1, h2]
  simp

/-- Appending to a full window drops the oldest element. -/
lemma lastN_append_of_ge (n : ℕ) (hn : 1 ≤ n) (l : List α) (x : α) (h : n ≤ l.length) :
    lastN n (l ++ [x]) = (lastN n l).tail ++ [x] := by
  have h1 : (l ++ [x]).length - n = l.length - n + 1 := by
    simp only [List.length_append, List.length_cons, List.length_nil]
    omega
  unfold lastN
  rw [h1, List.tail_drop, ← List.drop_append_of_le_length (by omega : l.length - n + 1 ≤ l.length)]

/-- One `trimStep` keeps `earValues`/`timestamps` equal to the last 100
of everything recorded so far. -/
lemma trimStep_lastN (h : DetectionHistory) (E : List ℚ) (T : List ℤ) (e : ℚ) (t : ℤ)
    (hm : h.maxHistoryLength = 100)
    (he : h.earValues = lastN 100 E) (ht : h.timestamps = lastN 100 T)
    (hlen : T.length = E.length) :
    (trimStep h e t).1 = lastN 100 (E ++ [e]) ∧
      (trimStep h e t).2.1 = lastN 100 (T ++ [t]) := by
  have hEl : (lastN 100 E).length = min 100 E.length := lastN_length _ _
  have hTl : (lastN 100 T).length = min 100 T.length := lastN_length _ _
  unfold trimStep
  rw [hm, he, ht]
  by_cases hc : 100 ≤ E.length
  · rw [if_pos (by simp only [List.length_append, List.length_cons, List.length_nil, hEl]; omega)]
    have hEne : lastN 100 E ≠ [] := by
      intro hnil
      rw [hnil] at hEl
      simp at hEl
      omega
    have hTne : lastN 100 T ≠ [] := by
      intro hnil
      rw [hnil] at hTl
      simp at hTl
      omega
    constructor
    · rw [lastN_append_of_ge 100 (by omega) E e hc, List.tail_append_of_ne_nil hEne]
    · rw [lastN_append_of_ge 100 (by omega) T t (by omega), List.tail_append_of_ne_nil hTne]
  · rw [if_neg (by simp only [List.length_append, List.length_cons, List.length_nil, hEl]; omega)]
    constructor
    · rw [lastN_append_of_lt 100 E e (by omega)]
    · rw [lastN_append_of_lt 100 T t (by omega)]

/-- The updated history of one analysis step, projected (definitional). -/
lemma analyze_history_earValues (cfg : DrowsinessConfig) (h : DetectionHistory) (e : ℚ) (t : ℤ) :
    (analyzeDrowsinessPattern cfg h e t).1.earValues = (trimStep h e t).1 := rfl

lemma analyze_history_timestamps (cfg : DrowsinessConfig) (h : DetectionHistory) (e : ℚ) (t : ℤ) :
    (analyzeDrowsinessPattern cfg h e t).1.timestamps = (trimStep h e t).2.1 := rfl

lemma analyze_history_maxHistoryLength (cfg : DrowsinessConfig) (h : DetectionHistory) (e : ℚ) (t : ℤ) :
    (analyzeDrowsinessPattern cfg h e t).1.maxHistoryLength = h.maxHistoryLength := rfl

/-- Folding the per-frame step keeps the window invariant. -/
lemma analyze_fold_lastN (cfg : DrowsinessConfig) :
    ∀ (samples : List (ℚ × ℤ)) (h : DetectionHistory) (E : List ℚ) (T : List ℤ),
      h.maxHistoryLength = 100 → h.earValues = lastN 100 E → h.timestamps = lastN 100 T →
      T.length = E.length →
      (samples.foldl (fun h s => (analyzeDrowsinessPattern cfg h s.1 s.2).1) h).earValues =
          lastN 100 (E ++ samples.map Prod.fst) ∧
        (samples.foldl (fun h s => (analyzeDrowsinessPattern cfg h s.1 s.2).1) h).timestamps =
          lastN 100 (T ++ samples.map Prod.snd) := by
  intro samples
  induction samples with
  | nil =>
      intro h E T hm he ht hlen
      simpa using ⟨he, ht⟩
  | cons s rest ih =>
      intro h E T hm he ht hlen
      have step := trimStep_lastN h E T s.1 s.2 hm he ht hlen
      have := ih (analyzeDrowsinessPattern cfg h s.1 s.2).1 (E ++ [s.1]) (T ++ [s.2])
        (by rw [analyze_history_maxHistoryLength, hm])
        (by rw [analyze_history_earValues, step.1])
        (by rw [analyze_history_timestamps, step.2])
        (by simp [hlen])
      simpa [List.append_assoc] using this

/-- **C7.** The history buffer is a FIFO sliding window: after recording
any sample sequence, `earValues` and `timestamps` hold exactly the last
`maxHistoryLength = 100` recorded samples in insertion order (all of
them while at most 100 were recorded), so the buffer length never
exceeds 100. -/
theorem history_buffer_sliding_window (cfg : DrowsinessConfig) (samples : List (ℚ × ℤ)) :
    (recordSamples cfg samples).earValues = lastN 100 (samples.map Prod.fst) ∧
      (recordSamples cfg samples).timestamps = lastN 100 (samples.map Prod.snd) ∧
      (recordSamples cfg samples).earValues.length ≤ 100 ∧
      (recordSamples cfg samples).timestamps.length ≤ 100 := by
  have base := analyze_fold_lastN cfg samples initialDetectionHistory [] [] rfl rfl rfl rfl
  simp only [List.nil_append] at base
  refine ⟨base.1, base.2, ?_, ?_⟩
  · rw [show (recordSamples cfg samples).earValues =
        (samples.foldl (fun h s => (analyzeDrowsinessPattern cfg h s.1 s.2).1)
          initialDetectionHistory).earValues from rfl, base.1, lastN_length]
    omega
  · rw [show (recordSamples cfg samples).timestamps =
        (samples.foldl (fun h s => (analyzeDrowsinessPattern cfg h s.1 s.2).1)
          initialDetectionHistory).timestamps from rfl, base.2, lastN_length]
    omega

/-- **C8.** The three parallel history sequences keep equal lengths:
one `analyzeDrowsinessPattern` call (insertion plus possible eviction)
preserves equal lengths of `earValues`, `timestamps` and `blinkStates`.
(The capacity is positive — it is the constant 100 in the program; with
capacity 0 the eviction on an empty `blinkStates` array would be a
no-op `shift()` and the lengths would diverge.) -/
theorem parallel_history_lengths_preserved (cfg : DrowsinessConfig) (h : DetectionHistory)
    (currentEAR : ℚ) (timestamp : ℤ)
    (hmax : 1 ≤ h.maxHistoryLength)
    (hb : h.blinkStates.length = h.earValues.length)
    (ht : h.timestamps.length = h.earValues.length) :
    (analyzeDrowsinessPattern cfg h currentEAR timestamp).1.blinkStates.length =
        (analyzeDrowsinessPattern cfg h currentEAR timestamp).1.earValues.length ∧
      (analyzeDrowsinessPattern cfg h currentEAR timestamp).1.timestamps.length =
        (analyzeDrowsinessPattern cfg h currentEAR timestamp).1.earValues.length := by
  show (blinkStatesAfter cfg h currentEAR timestamp).length = (trimStep h currentEAR timestamp).1.length ∧
    (trimStep h currentEAR timestamp).2.1.length = (trimStep h currentEAR timestamp).1.length
  unfold blinkStatesAfter trimStep
  dsimp only
  split_ifs with hc
  · simp only [List.length_append, List.length_tail, List.length_cons, List.length_nil] at *
    omega
  · simp only [List.length_append, List.length_cons, List.length_nil] at *
    omega

/-- Witness for **C8**: one step from the empty initial history. -/
theorem parallel_history_lengths_preserved_witness :
    (analyzeDrowsinessPattern defaultConfig initialDetectionHistory 0 0).1.blinkStates.length =
        (analyzeDrowsinessPattern defaultConfig initialDetectionHistory 0 0).1.earValues.length ∧
      (analyzeDrowsinessPattern defaultConfig initialDetectionHistory 0 0).1.timestamps.length =
        (analyzeDrowsinessPattern defaultConfig initialDetectionHistory 0 0).1.earValues.length :=
  parallel_history_lengths_preserved defaultConfig initialDetectionHistory 0 0
    (by norm_num [initialDetectionHistory]) rfl rfl

/-! ## Claims about the per-frame analysis -/

/-- **C2.** For every frame on which `isSustainedClosure` is true, the
assessment returned by `analyzeDrowsinessPattern` has
`drowsinessScore ≥ 95`, `isDrowsy = true`, and `alertLevel = critical`.
(The `0 < earThreshold` hypothesis records the configuration domain
[0.15, 0.35]; at `earThreshold = 0` the JavaScript arithmetic would
produce `NaN` scores, which the exact-arithmetic embedding does not
reproduce.) -/
theorem sustained_closure_forces_critical (cfg : DrowsinessConfig) (h : DetectionHistory)
    (currentEAR : ℚ) (timestamp : ℤ) (_hthr : 0 < cfg.earThreshold)
    (hs : (analyzeDrowsinessPattern cfg h currentEAR timestamp).2.isSustainedClosure = true) :
    95 ≤ (analyzeDrowsinessPattern cfg h currentEAR timestamp).2.drowsinessScore ∧
      (analyzeDrowsinessPattern cfg h currentEAR timestamp).2.isDrowsy = true ∧
      (analyzeDrowsinessPattern cfg h currentEAR timestamp).2.alertLevel = AlertLevel.critical := by
  have hs' : isSustainedClosureOf cfg h currentEAR timestamp = true := hs
  obtain ⟨h95, hlevel⟩ := sustained_score_level cfg h currentEAR timestamp hs'
  refine ⟨h95, ?_, hlevel⟩
  show (isDrowsyOf cfg h currentEAR timestamp || isSustainedClosureOf cfg h currentEAR timestamp) = true
  rw [hs', Bool.or_true]

/-- Witness for **C2**: with the default configuration, eyes still
closed at `t = 3000` after a closure that started at `t = 0` is a
sustained closure, and the conclusions of the theorem evaluate. -/
theorem sustained_closure_forces_critical_witness :
    (analyzeDrowsinessPattern defaultConfig sustainedHistoryW 0 3000).2.isSustainedClosure = true ∧
      (95 ≤ (analyzeDrowsinessPattern defaultConfig sustainedHistoryW 0 3000).2.drowsinessScore ∧
        (analyzeDrowsinessPattern defaultConfig sustainedHistoryW 0 3000).2.isDrowsy = true ∧
        (analyzeDrowsinessPattern defaultConfig sustainedHistoryW 0 3000).2.alertLevel =
          AlertLevel.critical) :=
  ⟨by
    norm_num [analyzeDrowsinessPattern, isSustainedClosureOf, eyeClosureDurationOf,
      closureUpdate, sustainedHistoryW, initialDetectionHistory, defaultConfig],
   sustained_closure_forces_critical defaultConfig sustainedHistoryW 0 3000
    (by norm_num [defaultConfig])
    (by
      norm_num [analyzeDrowsinessPattern, isSustainedClosureOf, eyeClosureDurationOf,
        closureUpdate, sustainedHistoryW, initialDetectionHistory, defaultConfig])⟩

/-! ## Claims about the alert-raising policy -/

/-- **C1, counterexample.** A frame whose derived alert level is
`critical` from `drowsinessScore > 80` alone (no sustained closure) is
suppressed by the cooldown check: with `now - lastAlertTime = 100 ≤
alertCooldown = 3000`, no alert event is emitted. -/
theorem score_critical_suppressed_by_cooldown_cex :
    (analyzeDrowsinessPattern defaultConfig cexC1History 0 1000).2.alertLevel =
        AlertLevel.critical ∧
      80 < (analyzeDrowsinessPattern defaultConfig cexC1History 0 1000).2.drowsinessScore ∧
      (analyzeDrowsinessPattern defaultConfig cexC1History 0 1000).2.isSustainedClosure = false ∧
      (analyzeDrowsinessPattern defaultConfig cexC1History 0 1000).2.isDrowsy = true ∧
      (detectFaceAndEyes defaultConfig cexC1State (FrameInput.face 0) 1000).2 = none := by
  norm_num [detectFaceAndEyes, analyzeDrowsinessPattern, alertDecision, alertLevelOf,
    drowsinessScoreOf, baseScoreOf, earScoreOf, blinkScoreOf, avgEAROf, recentBlinksOf,
    recentLowEARCountOf, isDrowsyOf, isBlinkOf, isSustainedClosureOf, eyeClosureDurationOf,
    blinkStatesAfter, trimStep, closureUpdate, jsSliceNeg, cexC1State, cexC1History,
    initialEngineState, initialDetectionHistory, defaultConfig, List.replicate, List.filter,
    List.zip, List.zipWith]

/-- **C1, amended.** Only a sustained-closure `critical` bypasses the
cooldown: on any frame without sustained closure — whatever the derived
alert level, including a score-based `critical` — no alert is emitted
unless `now - lastAlertTime > alertCooldown`. -/
theorem nonsustained_alerts_gated_by_cooldown (cfg : DrowsinessConfig) (s : EngineState)
    (avgEAR : ℚ) (now : ℤ)
    (hns : (analyzeDrowsinessPattern cfg s.history avgEAR now).2.isSustainedClosure = false)
    (hcool : now - s.lastAlertTime ≤ cfg.alertCooldown) :
    (detectFaceAndEyes cfg s (FrameInput.face avgEAR) now).2 = none := by
  show (alertDecision cfg s.alertState s.lastAlertTime
    (analyzeDrowsinessPattern cfg s.history avgEAR now).2 now).2.2 = none
  have hd : decide (cfg.alertCooldown < now - s.lastAlertTime) = false := by
    simpa using not_lt.mpr hcool
  unfold alertDecision
  rw [hns, hd]
  simp

/-- Witness for **C1 amended**: an open-eyes frame from the initial
state, still inside the cooldown window, emits nothing. -/
theorem nonsustained_alerts_gated_by_cooldown_witness :
    (detectFaceAndEyes defaultConfig initialEngineState (FrameInput.face 0.3) 0).2 = none :=
  nonsustained_alerts_gated_by_cooldown defaultConfig initialEngineState 0.3 0
    (by
      norm_num [analyzeDrowsinessPattern, isSustainedClosureOf, eyeClosureDurationOf,
        closureUpdate, initialEngineState, initialDetectionHistory, defaultConfig])
    (by norm_num [initialEngineState, defaultConfig])

/-- **C5, counterexample.** A sustained-closure frame while the machine
is *inactive* (previous critical alert dismissed, `level` still
`critical`) does not fire: the source gate tests `alertState.level !==
"critical"`, not `Active(critical)`, and the drowsy path is then blocked
by the cooldown (`now - lastAlertTime = 100 ≤ 3000`). -/
theorem sustained_suppressed_after_dismissed_critical_cex :
    cexC5State.alertState.isActive = false ∧
      cexC5State.alertState.level = AlertLevel.critical ∧
      (analyzeDrowsinessPattern defaultConfig cexC5State.history 0 3500).2.isSustainedClosure =
        true ∧
      (detectFaceAndEyes defaultConfig cexC5State (FrameInput.face 0) 3500).2 = none := by
  norm_num [detectFaceAndEyes, analyzeDrowsinessPattern, alertDecision, alertLevelOf,
    drowsinessScoreOf, baseScoreOf, earScoreOf, blinkScoreOf, avgEAROf, recentBlinksOf,
    recentLowEARCountOf, isDrowsyOf, isBlinkOf, isSustainedClosureOf, eyeClosureDurationOf,
    blinkStatesAfter, trimStep, closureUpdate, jsSliceNeg, cexC5State, dismissAlert,
    triggerAlert, initialEngineState, initialDetectionHistory, defaultConfig, List.filter,
    List.zip, List.zipWith]

/-- **C5, amended.** A sustained-closure frame fires immediately,
bypassing the cooldown, whenever the *recorded level* of the alert state
is not `critical` (active or not); when the recorded level is `critical`
— even after a dismiss — the sustained-closure path is suppressed. -/
theorem sustained_fires_when_level_not_critical (cfg : DrowsinessConfig) (s : EngineState)
    (avgEAR : ℚ) (now : ℤ)
    (hs : (analyzeDrowsinessPattern cfg s.history avgEAR now).2.isSustainedClosure = true)
    (hl : s.alertState.level ≠ AlertLevel.critical) :
    (detectFaceAndEyes cfg s (FrameInput.face avgEAR) now).2 =
        some ⟨AlertLevel.critical,
          (analyzeDrowsinessPattern cfg s.history avgEAR now).2.alertMessage, now⟩ ∧
      (detectFaceAndEyes cfg s (FrameInput.face avgEAR) now).1.alertState =
        triggerAlert AlertLevel.critical
          (analyzeDrowsinessPattern cfg s.history avgEAR now).2.alertMessage now := by
  have hcrit : (analyzeDrowsinessPattern cfg s.history avgEAR now).2.alertLevel =
      AlertLevel.critical :=
    (sustained_score_level cfg s.history avgEAR now hs).2
  have hd : decide (s.alertState.level = AlertLevel.critical) = false := by
    simpa using hl
  constructor
  · show (alertDecision cfg s.alertState s.lastAlertTime
      (analyzeDrowsinessPattern cfg s.history avgEAR now).2 now).2.2 = _
    unfold alertDecision
    rw [hs, hd, hcrit]
    simp
  · show (alertDecision cfg s.alertState s.lastAlertTime
      (analyzeDrowsinessPattern cfg s.history avgEAR now).2 now).1 = _
    unfold alertDecision
    rw [hs, hd, hcrit]
    simp

/-- Witness for **C5 amended**: from the initial alert state (level
`low`), a sustained closure at `t = 3000` fires immediately even though
`lastAlertTime` is recent. -/
theorem sustained_fires_when_level_not_critical_witness :
    (detectFaceAndEyes defaultConfig
        { initialEngineState with history := sustainedHistoryW, lastAlertTime := 2999 }
        (FrameInput.face 0) 3000).2 =
      some ⟨AlertLevel.critical,
        (analyzeDrowsinessPattern defaultConfig sustainedHistoryW 0 3000).2.alertMessage,
        3000⟩ :=
  (sustained_fires_when_level_not_critical defaultConfig
    { initialEngineState with history := sustainedHistoryW, lastAlertTime := 2999 } 0 3000
    (by
      norm_num [analyzeDrowsinessPattern, isSustainedClosureOf, eyeClosureDurationOf,
        closureUpdate, sustainedHistoryW, initialDetectionHistory, defaultConfig])
    (by decide)).1

/-! ## Claims about the no-face branch -/

/-- **C6, counterexample.** After a closed-eyes frame at `t = 0` and a
no-face frame at `t = 1000`, the stored closure start time is still
`0`: a closed-eye frame at `t = 3500` accumulates a closure duration of
3500 ms — spanning the no-face gap — and is classified as sustained. -/
theorem closure_state_survives_noface_cex :
    cexC6State2.history.eyeClosureStartTime = some 0 ∧
      (analyzeDrowsinessPattern defaultConfig cexC6State2.history 0 3500).2.eyeClosureDuration =
        3500 ∧
      (analyzeDrowsinessPattern defaultConfig cexC6State2.history 0 3500).2.isSustainedClosure =
        true := by
  norm_num [cexC6State2, cexC6State1, detectFaceAndEyes, analyzeDrowsinessPattern,
    isSustainedClosureOf, eyeClosureDurationOf, closureUpdate, initialEngineState,
    initialDetectionHistory, defaultConfig]

/-- **C6, amended.** On a no-face frame the engine zeroes only display
stats: the detection history — in particular `eyeClosureStartTime` — is
carried forward unchanged, so a later closed-eye frame continues
accumulating closure duration across the no-face gap. -/
theorem noface_leaves_history_untouched (cfg : DrowsinessConfig) (s : EngineState) (now : ℤ) :
    (detectFaceAndEyes cfg s FrameInput.noFace now).1.history = s.history ∧
      (detectFaceAndEyes cfg s FrameInput.noFace now).1.alertState = s.alertState ∧
      (detectFaceAndEyes cfg s FrameInput.noFace now).1.lastAlertTime = s.lastAlertTime ∧
      (detectFaceAndEyes cfg s FrameInput.noFace now).2 = none :=
  ⟨rfl, rfl, rfl, rfl⟩

/-! ## Claims about the session aggregator -/

/-- **C10.** Calling `startSession` while a session is already open
replaces `currentSession` with a fresh zeroed session: the previously
open session is discarded without receiving an `endTime` and without
being appended to the `sessions` archive, and the per-frame
`updateAnalytics` never touches the archive either (`endSession` is the
only archiving operation). -/
theorem startSession_discards_open_session (now : ℤ) (a : AnalyticsData) (s : SessionData)
    (_hopen : a.currentSession = some s) :
    (startSession now a).currentSession = some (freshSession now) ∧
      (startSession now a).sessions = a.sessions ∧
      (freshSession now).endTime = none ∧
      (freshSession now).maxDrowsinessScore = 0 ∧
      (∀ now2 e d lvl br, (updateAnalytics now2 e d lvl br a).sessions = a.sessions) :=
  ⟨rfl, rfl, rfl, rfl, fun _ _ _ _ _ => rfl⟩

/-- Witness for **C10**: an analytics state with an open session started
at `t = 1`, restarted at `t = 5`. -/
theorem startSession_discards_open_session_witness :
    (startSession 5 { initialAnalytics with currentSession := some (freshSession 1) }).currentSession =
        some (freshSession 5) ∧
      (startSession 5 { initialAnalytics with
          currentSession := some (freshSession 1) }).sessions =
        ({ initialAnalytics with currentSession := some (freshSession 1) } : AnalyticsData).sessions :=
  ⟨(startSession_discards_open_session 5
      { initialAnalytics with currentSession := some (freshSession 1) } (freshSession 1) rfl).1,
    (startSession_discards_open_session 5
      { initialAnalytics with currentSession := some (freshSession 1) } (freshSession 1) rfl).2.1⟩

/-! ## Claims about the geometry extractor -/

lemma ptDist_self (p : Point2D) : ptDist p p = 0 := by
  simp [ptDist]

lemma ptDist_nonneg (p q : Point2D) : 0 ≤ ptDist p q :=
  Real.sqrt_nonneg _

lemma ptDist_ptA_ptB : ptDist ptA ptB = 1 := by
  simp only [ptDist, ptA, ptB]
  norm_num

lemma ptDist_ptA_ptC : ptDist ptA ptC = 1 := by
  simp only [ptDist, ptA, ptC]
  norm_num

/-- Evaluation of the eye extractor on a list of at least 6 points. -/
lemma calculateEyeAspectRatio_cons (p0 p1 p2 p3 p4 p5 : Point2D) (rest : List Point2D) :
    calculateEyeAspectRatio (p0 :: p1 :: p2 :: p3 :: p4 :: p5 :: rest) =
      some (jsDiv (ptDist p1 p5 + ptDist p2 p4) (2 * ptDist p0 p3)) := by
  unfold calculateEyeAspectRatio
  rw [if_neg (by simp only [List.length_cons]; omega)]
  simp

/-- Evaluation of the mouth extractor on a list of at least 8 points. -/
lemma calculateMouthAspectRatio_cons (p0 p1 p2 p3 p4 p5 p6 p7 : Point2D)
    (rest : List Point2D) :
    calculateMouthAspectRatio (p0 :: p1 :: p2 :: p3 :: p4 :: p5 :: p6 :: p7 :: rest) =
      some (jsDiv (ptDist p2 p6 + ptDist p3 p7) (2 * ptDist p0 p4)) := by
  unfold calculateMouthAspectRatio
  rw [if_neg (by simp only [List.length_cons]; omega)]
  simp

/-- **C3.** The eye extractor returns `0` for short inputs, but the
mouth extractor's guard is `< 6` while its body reads indices 6 and 7:
a 5-point mouth list returns `0`, while 6- and 7-point mouth lists pass
the guard and crash (`none`: `TypeError` on `mouthPoints[6].x`) instead
of returning the `0` the claim requires for all inputs shorter than
8 points. -/
theorem mouth_guard_mismatch_evaluations :
    calculateMouthAspectRatio (List.replicate 6 ptA) = none ∧
      calculateMouthAspectRatio (List.replicate 7 ptA) = none ∧
      calculateMouthAspectRatio (List.replicate 5 ptA) = some (JSNumber.num 0) ∧
      calculateEyeAspectRatio (List.replicate 5 ptA) = some (JSNumber.num 0) := by
  refine ⟨?_, ?_, ?_, ?_⟩ <;> rfl

/-- **C4, counterexample.** On a 6-point eye set whose horizontal
reference distance is zero but whose vertical distances are positive,
`calculateEyeAspectRatio` returns `Infinity`, not `0`. -/
theorem zero_width_eye_gives_infinity_cex :
    calculateEyeAspectRatio degenerateEye = some JSNumber.posInf ∧
      calculateEyeAspectRatio degenerateEye ≠ some (JSNumber.num 0) := by
  have he : calculateEyeAspectRatio degenerateEye = some JSNumber.posInf := by
    show calculateEyeAspectRatio (ptA :: ptA :: ptA :: ptA :: ptB :: ptB :: []) = _
    rw [calculateEyeAspectRatio_cons, ptDist_ptA_ptB, ptDist_self, mul_zero]
    unfold jsDiv
    norm_num
  refine ⟨he, ?_⟩
  rw [he]
  intro hcontra
  simp at hcontra

/-- JavaScript division of a nonnegative numerator by zero is
`Infinity` or `NaN`, never a finite number. -/
lemma jsDiv_nonneg_zero (a : ℝ) (ha : 0 ≤ a) :
    jsDiv a 0 = JSNumber.posInf ∨ jsDiv a 0 = JSNumber.nan := by
  unfold jsDiv
  rcases eq_or_lt_of_le ha with h | h
  · right
    rw [← h]
    simp
  · left
    simp [h.ne', h]

/-- **C4, amended.** On every point set whose horizontal reference
distance is zero (`p3 = p0` for a 6-point eye, `p4 = p0` for an 8-point
mouth), the unguarded division yields `Infinity` (positive vertical
distance sum) or `NaN` (zero sum) — never the `0` a hardened
reimplementation must return. -/
theorem zero_width_ratio_nonfinite (p0 p1 p2 p3 p4 p5 : Point2D) (he : p3 = p0)
    (q0 q1 q2 q3 q4 q5 q6 q7 : Point2D) (hm : q4 = q0) :
    (calculateEyeAspectRatio [p0, p1, p2, p3, p4, p5] = some JSNumber.posInf ∨
        calculateEyeAspectRatio [p0, p1, p2, p3, p4, p5] = some JSNumber.nan) ∧
      (calculateMouthAspectRatio [q0, q1, q2, q3, q4, q5, q6, q7] = some JSNumber.posInf ∨
        calculateMouthAspectRatio [q0, q1, q2, q3, q4, q5, q6, q7] = some JSNumber.nan) := by
  constructor
  · rw [calculateEyeAspectRatio_cons, he, ptDist_self, mul_zero]
    rcases jsDiv_nonneg_zero (ptDist p1 p5 + ptDist p2 p4)
        (add_nonneg (ptDist_nonneg _ _) (ptDist_nonneg _ _)) with h | h
    · left; rw [h]
    · right; rw [h]
  · rw [calculateMouthAspectRatio_cons, hm, ptDist_self, mul_zero]
    rcases jsDiv_nonneg_zero (ptDist q2 q6 + ptDist q3 q7)
        (add_nonneg (ptDist_nonneg _ _) (ptDist_nonneg _ _)) with h | h
    · left; rw [h]
    · right; rw [h]

/-- Witness for **C4 amended**: concrete degenerate eye and mouth sets. -/
theorem zero_width_ratio_nonfinite_witness :
    (calculateEyeAspectRatio [ptA, ptA, ptA, ptA, ptB, ptB] = some JSNumber.posInf ∨
        calculateEyeAspectRatio [ptA, ptA, ptA, ptA, ptB, ptB] = some JSNumber.nan) ∧
      (calculateMouthAspectRatio [ptA, ptB, ptB, ptB, ptA, ptB, ptB, ptB] = some JSNumber.posInf ∨
        calculateMouthAspectRatio [ptA, ptB, ptB, ptB, ptA, ptB, ptB, ptB] = some JSNumber.nan) :=
  zero_width_ratio_nonfinite ptA ptA ptA ptA ptB ptB rfl ptA ptB ptB ptB ptA ptB ptB ptB rfl

/-- Distances scale linearly under uniform scaling by `k ≥ 0`. -/
lemma ptDist_scale (k : ℝ) (hk : 0 ≤ k) (p q : Point2D) :
    ptDist (scalePoint k p) (scalePoint k q) = k * ptDist p q := by
  simp only [ptDist, scalePoint]
  rw [show (k * p.x - k * q.x) ^ 2 + (k * p.y - k * q.y) ^ 2
      = k ^ 2 * ((p.x - q.x) ^ 2 + (p.y - q.y) ^ 2) from by ring]
  rw [Real.sqrt_mul (sq_nonneg k), Real.sqrt_sq hk]

/-- **C9.** For every scale factor `k > 0` and every 6-point eye set
with nonzero horizontal reference distance, the EAR of the uniformly
scaled points equals the EAR of the original points. -/
theorem ear_scale_invariant (k : ℝ) (hk : 0 < k) (p0 p1 p2 p3 p4 p5 : Point2D)
    (hh : ptDist p0 p3 ≠ 0) :
    calculateEyeAspectRatio ([p0, p1, p2, p3, p4, p5].map (scalePoint k)) =
      calculateEyeAspectRatio [p0, p1, p2, p3, p4, p5] := by
  simp only [List.map_cons, List.map_nil]
  rw [calculateEyeAspectRatio_cons, calculateEyeAspectRatio_cons]
  rw [ptDist_scale k hk.le, ptDist_scale k hk.le, ptDist_scale k hk.le]
  have h2 : (2 : ℝ) * ptDist p0 p3 ≠ 0 := mul_ne_zero two_ne_zero hh
  have h2k : (2 : ℝ) * (k * ptDist p0 p3) ≠ 0 :=
    mul_ne_zero two_ne_zero (mul_ne_zero hk.ne' hh)
  unfold jsDiv
  rw [if_neg h2k, if_neg h2]
  have hq : (k * ptDist p1 p5 + k * ptDist p2 p4) / (2 * (k * ptDist p0 p3))
      = (ptDist p1 p5 + ptDist p2 p4) / (2 * ptDist p0 p3) := by
    rw [div_eq_div_iff h2k h2]
    ring
  rw [hq]

/-- Witness for **C9**: scaling a concrete eye set with horizontal
width 1 by `k = 2`. -/
theorem ear_scale_invariant_witness :
    calculateEyeAspectRatio (witnessEye.map (scalePoint 2)) =
      calculateEyeAspectRatio witnessEye :=
  ear_scale_invariant 2 (by norm_num) ptA ptA ptA ptC ptA ptA
    (by rw [ptDist_ptA_ptC]; norm_num)

end Drowsy

